import Mathlib

set_option autoImplicit false

namespace PortfolioBackend

/-! # Shallow embedding of the comp229 portfolio backend

The repository is a small REST backend: a JWT auth flow (signup/login), an
auth-guard middleware over the `Authorization` header, and CRUD controllers
for users/projects.  The route tables (`src/routes/projects.routes.js`,
`users.routes.js`) are embedded from the source; the middleware and the
controllers themselves are not present in the sources (only their tests and
callers are), so those operations are modelled from the specification, as
their doc comments state. -/

/-- JavaScript `header.split(' ')` semantics on a character list: split at
every single space character; adjacent separators yield empty parts and the
empty input yields one empty part. -/
def splitSpAux : List Char → List (List Char)
  | [] => [[]]
  | c :: cs =>
    if c = ' ' then [] :: splitSpAux cs
    else
      match splitSpAux cs with
      | [] => [[c]]
      | p :: ps => (c :: p) :: ps

/-- Split a string on every single space, as JS `split(' ')` does. -/
def splitSp (s : String) : List String :=
  (splitSpAux s.data).map List.asString

/-- A space-free character list is a single part. -/
theorem splitSpAux_no_space (l : List Char) (h : ' ' ∉ l) :
    splitSpAux l = [l] := by
  induction l with
  | nil => rfl
  | cons c cs ih =>
    simp only [List.mem_cons, not_or] at h
    rw [splitSpAux, if_neg (fun hc => h.1 hc.symm), ih h.2]

/-- Splitting `pre ++ ' ' :: rest` where `pre` is space-free peels off `pre`
as the first part. -/
theorem splitSpAux_append_space (pre rest : List Char) (h : ' ' ∉ pre) :
    splitSpAux (pre ++ ' ' :: rest) = pre :: splitSpAux rest := by
  induction pre with
  | nil => simp [splitSpAux]
  | cons c cs ih =>
    simp only [List.mem_cons, not_or] at h
    rw [List.cons_append, splitSpAux, if_neg (fun hc => h.1 hc.symm),
      ih h.2]

theorem string_data_append (a b : String) : (a ++ b).data = a.data ++ b.data :=
  rfl

theorem asString_data (s : String) : s.data.asString = s :=
  rfl

/-- Decoded token claims attached to a request context: `{userId, email}`. -/
structure Claims where
  userId : Nat
  email : String
deriving DecidableEq, Repr

/-- Terminal state of the Auth Guard on one request: `pass` with the decoded
claims attached, or `reject` (a 401 response). -/
inductive GuardResult where
  | pass (claims : Claims)
  | reject
deriving DecidableEq, Repr

/-- The scheme/token check the guard performs on the parts of the split
header: exactly two parts, the first being the literal `Bearer`
(case-sensitive), and the second verifying as a token. -/
def guardParts (verify : String → Option Claims) :
    List String → GuardResult
  | [scheme, token] =>
    if scheme = "Bearer" then
      match verify token with
      | some c => .pass c
      | none => .reject
    else .reject
  | _ => .reject

/-- Modelled from the spec: the auth-guard middleware
(`src/middleware/auth.middleware.js` is absent from the sources; only its
tests and the route tables that install it are present).  Steps of spec §4.3:
read the `Authorization` header (absent → REJECT); split on single spaces and
require exactly two parts (anything else → REJECT); the first part must be the
literal scheme token `Bearer`, compared case-sensitively; the second part is
handed to the token codec's verify, whose failure → REJECT; on success the
decoded claims are the attached identity (PASS). -/
def authGuard (verify : String → Option Claims) (header : Option String) :
    GuardResult :=
  match header with
  | none => .reject
  | some h => guardParts verify (splitSp h)

/-- Modelled from the spec: running a guard-protected route.  On REJECT the
response status is 401 and the wrapped handler is never invoked; on PASS the
decoded claims are handed to the wrapped handler, whose status is returned. -/
def runGuarded (verify : String → Option Claims) (handler : Claims → Nat)
    (header : Option String) : Nat :=
  match authGuard verify header with
  | .pass c => handler c
  | .reject => 401

/-- The REJECT condition exactly as the claim states it: the header is absent,
or does not split on a single space into exactly two parts, or its first part
is not the scheme token `Bearer`, or token verification fails. -/
def rejectCond (verify : String → Option Claims) (header : Option String) :
    Prop :=
  header = none ∨
    ∃ h, header = some h ∧
      ((splitSp h).length ≠ 2 ∨
        ∃ s t, splitSp h = [s, t] ∧ (s ≠ "Bearer" ∨ verify t = none))

theorem guardParts_reject_iff (verify : String → Option Claims)
    (parts : List String) :
    guardParts verify parts = .reject ↔
      (parts.length ≠ 2 ∨
        ∃ s t, parts = [s, t] ∧ (s ≠ "Bearer" ∨ verify t = none)) := by
  rcases parts with _ | ⟨a, _ | ⟨b, _ | ⟨d, rest⟩⟩⟩
  · simp [guardParts]
  · simp [guardParts]
  · by_cases ha : a = "Bearer"
    · subst ha
      cases hv : verify b with
      | none =>
        simp [guardParts, hv]
        exact ⟨"Bearer", b, ⟨rfl, rfl⟩, Or.inr hv⟩
      | some cl => simp [guardParts, hv]
    · simp [guardParts, ha]
      exact ⟨a, b, ⟨rfl, rfl⟩, Or.inl ha⟩
  · simp [guardParts]

theorem guardParts_pass (verify : String → Option Claims)
    (parts : List String) (c : Claims)
    (h : guardParts verify parts = .pass c) :
    ∃ t, parts = ["Bearer", t] ∧ verify t = some c := by
  rcases parts with _ | ⟨a, _ | ⟨b, _ | ⟨d, rest⟩⟩⟩
  · simp [guardParts] at h
  · simp [guardParts] at h
  · by_cases ha : a = "Bearer"
    · subst ha
      cases hv : verify b with
      | none => simp [guardParts, hv] at h
      | some cl =>
        simp only [guardParts, if_pos rfl, hv] at h
        cases h
        exact ⟨b, rfl, hv⟩
    · simp [guardParts, ha] at h
  · simp [guardParts] at h

/-- A concrete test verifier: accepts exactly the token string `tok`. -/
def testVerify : String → Option Claims :=
  fun t => if t = "tok" then some ⟨1, "a@b.c"⟩ else none

/-- C1: the Auth Guard REJECTs (401, wrapped handler never invoked) iff the
`Authorization` header is absent, does not split on a single space into
exactly two parts, has a first part other than the literal `Bearer`, or its
token fails verification; otherwise it PASSes, attaching the decoded claims
and invoking the wrapped handler on them. -/
theorem authGuard_reject_iff_pass (verify : String → Option Claims)
    (header : Option String) :
    (authGuard verify header = .reject ↔ rejectCond verify header)
    ∧ (∀ c, authGuard verify header = .pass c →
        ∃ h t, header = some h ∧ splitSp h = ["Bearer", t]
          ∧ verify t = some c
          ∧ ∀ handler : Claims → Nat,
              runGuarded verify handler header = handler c)
    ∧ (authGuard verify header = .reject →
        ∀ handler : Claims → Nat, runGuarded verify handler header = 401) := by
  refine ⟨?_, ?_, ?_⟩
  · cases header with
    | none => simp [authGuard, rejectCond]
    | some h =>
      have hrw : rejectCond verify (some h) ↔
          ((splitSp h).length ≠ 2 ∨
            ∃ s t, splitSp h = [s, t] ∧ (s ≠ "Bearer" ∨ verify t = none)) := by
        simp [rejectCond]
      rw [show authGuard verify (some h) = guardParts verify (splitSp h)
        from rfl, hrw]
      exact guardParts_reject_iff verify (splitSp h)
  · intro c hc
    cases header with
    | none => simp [authGuard] at hc
    | some h =>
      obtain ⟨t, hpt, hv⟩ := guardParts_pass verify (splitSp h) c hc
      exact ⟨h, t, rfl, hpt, hv, fun handler => by simp [runGuarded, hc]⟩
  · intro hr handler
    simp [runGuarded, hr]

/-- Concrete instance of C1: at an absent header the guard rejects. -/
theorem authGuard_reject_iff_pass_witness :
    authGuard testVerify none = GuardResult.reject :=
  (authGuard_reject_iff_pass testVerify none).1.mpr (Or.inl rfl)

/-- For a space-free scheme and token, `scheme ++ " " ++ t` splits into
exactly the two parts `[scheme, t]`. -/
theorem splitSp_scheme_token (scheme t : String) (hsc : ' ' ∉ scheme.data)
    (ht : ' ' ∉ t.data) :
    splitSp (scheme ++ " " ++ t) = [scheme, t] := by
  have hdata : (scheme ++ " " ++ t).data = scheme.data ++ ' ' :: t.data := by
    rw [string_data_append, string_data_append]
    show scheme.data ++ [' '] ++ t.data = _
    simp [List.append_assoc]
  rw [splitSp, hdata, splitSpAux_append_space scheme.data _ hsc,
    splitSpAux_no_space t.data ht]
  simp [asString_data]

/-- C2: scheme comparison is case-sensitive — for any space-free token that
verifies, the header `bearer <token>` (lowercase) is REJECTed while
`Bearer <token>` PASSes with the decoded claims. -/
theorem bearer_case_sensitive (verify : String → Option Claims) (t : String)
    (c : Claims) (ht : ' ' ∉ t.data) (hv : verify t = some c) :
    authGuard verify (some ("bearer " ++ t)) = .reject
    ∧ authGuard verify (some ("Bearer " ++ t)) = .pass c := by
  have e1 : "bearer " ++ t = "bearer" ++ " " ++ t := rfl
  have e2 : "Bearer " ++ t = "Bearer" ++ " " ++ t := rfl
  have hlow : splitSp ("bearer " ++ t) = ["bearer", t] := by
    rw [e1]
    exact splitSp_scheme_token "bearer" t (by decide) ht
  have hup : splitSp ("Bearer " ++ t) = ["Bearer", t] := by
    rw [e2]
    exact splitSp_scheme_token "Bearer" t (by decide) ht
  constructor
  · show guardParts verify (splitSp ("bearer " ++ t)) = .reject
    rw [hlow]
    simp [guardParts]
  · show guardParts verify (splitSp ("Bearer " ++ t)) = .pass c
    rw [hup]
    simp [guardParts, hv]

/-- Concrete instance of C2 at the token `tok`. -/
theorem bearer_case_sensitive_witness :
    authGuard testVerify (some ("bearer " ++ "tok")) = GuardResult.reject
    ∧ authGuard testVerify (some ("Bearer " ++ "tok"))
        = GuardResult.pass ⟨1, "a@b.c"⟩ :=
  bearer_case_sensitive testVerify "tok" ⟨1, "a@b.c"⟩ (by decide) (by decide)

/-! ## Auth flow: store, token codec, signup and login -/

/-- A persisted user record, after the Mongoose user model: `password` stores
the bcrypt hash. -/
structure UserRecord where
  id : Nat
  firstname : String
  lastname : String
  email : String
  password : String
  created : Nat
  updated : Nat
deriving DecidableEq, Repr

/-- The user store: the persisted records plus a fresh-id counter. -/
structure Store where
  users : List UserRecord
  nextId : Nat
deriving DecidableEq, Repr

/-- Modelled from the spec: the Token Codec collaborator (spec §2).  A signed
token is self-contained: claims, issued-at, expiry, and the secret that
signed it (standing for the signature). -/
structure Token where
  claims : Claims
  iat : Nat
  exp : Nat
  secret : String
deriving DecidableEq, Repr

/-- Modelled from the spec: signing a claims payload with a 24-hour expiry
(spec §3, `expiresIn: 24h` in the tests). -/
def signToken (secret : String) (now : Nat) (c : Claims) : Token :=
  { claims := c, iat := now, exp := now + 24 * 60 * 60, secret := secret }

/-- Modelled from the spec: verification fails on a bad signature (wrong
secret) or an expired token, and otherwise yields the decoded claims. -/
def verifyToken (secret : String) (now : Nat) (t : Token) : Option Claims :=
  if t.secret = secret ∧ now < t.exp then some t.claims else none

/-- The sanitized user view serialized to a client: every field of the record
except the password hash. -/
def UserRecord.view (u : UserRecord) : List (String × String) :=
  [("_id", toString u.id), ("firstname", u.firstname),
    ("lastname", u.lastname), ("email", u.email),
    ("created", toString u.created), ("updated", toString u.updated)]

/-- Typed outcome of signup: `validationError` → 400, `conflictError` → 409,
`created` → 201 with message, token and sanitized user view. -/
inductive SignupResult where
  | validationError
  | conflictError
  | created (message : String) (token : Token) (user : List (String × String))
deriving DecidableEq, Repr

/-- HTTP status of a signup outcome. -/
def SignupResult.status : SignupResult → Nat
  | .validationError => 400
  | .conflictError => 409
  | .created _ _ _ => 201

/-- Top-level keys of the signup response body. -/
def SignupResult.bodyKeys : SignupResult → List String
  | .validationError => ["message"]
  | .conflictError => ["message"]
  | .created _ _ _ => ["message", "token", "user"]

/-- Modelled from the spec (§4.1; the auth controller is absent from src,
only its tests are present): signup validates that all four fields are
non-empty (an absent body field is modelled as the empty string — both fail
identically), rejects an already-registered email with a conflict, and
otherwise hashes the password, persists the record with fresh timestamps,
and returns a message, a fresh 24h token over `{userId, email}`, and the
sanitized user view. -/
def signup (hash : String → String) (secret : String) (now : Nat)
    (st : Store) (firstname lastname email password : String) :
    SignupResult × Store :=
  if firstname = "" ∨ lastname = "" ∨ email = "" ∨ password = "" then
    (.validationError, st)
  else if st.users.any (fun u => u.email == email) then
    (.conflictError, st)
  else
    let u : UserRecord :=
      { id := st.nextId, firstname := firstname, lastname := lastname,
        email := email, password := hash password,
        created := now, updated := now }
    (.created "User created successfully"
      (signToken secret now ⟨u.id, u.email⟩) u.view,
      { users := st.users ++ [u], nextId := st.nextId + 1 })

/-- Typed outcome of login: `validationError` → 400, `notFoundError` → 404,
`unauthorizedError` → 401, `ok` → 200 with message, token and user view. -/
inductive LoginResult where
  | validationError
  | notFoundError
  | unauthorizedError
  | ok (message : String) (token : Token) (user : List (String × String))
deriving DecidableEq, Repr

/-- HTTP status of a login outcome. -/
def LoginResult.status : LoginResult → Nat
  | .validationError => 400
  | .notFoundError => 404
  | .unauthorizedError => 401
  | .ok _ _ _ => 200

/-- Top-level keys of the login response body. -/
def LoginResult.bodyKeys : LoginResult → List String
  | .validationError => ["message"]
  | .notFoundError => ["message"]
  | .unauthorizedError => ["message"]
  | .ok _ _ _ => ["message", "token", "user"]

/-- Modelled from the spec (§4.2; the auth controller is absent from src):
login requires both fields, looks the user up by email (404 if absent),
verifies the password against the stored hash via the hasher (401 on
mismatch), and on success issues a fresh 24h token and returns the sanitized
view; the store is returned unchanged on every path. -/
def login (verifyPw : String → String → Bool) (secret : String) (now : Nat)
    (st : Store) (email password : String) : LoginResult × Store :=
  if email = "" ∨ password = "" then
    (.validationError, st)
  else
    match st.users.find? (fun u => u.email == email) with
    | none => (.notFoundError, st)
    | some u =>
      if verifyPw password u.password then
        (.ok "Login successful" (signToken secret now ⟨u.id, u.email⟩)
          u.view, st)
      else (.unauthorizedError, st)

/-- C3: signup is 400 exactly when a field is missing/empty, 409 exactly when
the email is already registered, otherwise 201 with a message, a token and a
user view; two successive signups with the same email yield 201 then 409. -/
theorem signup_statuses (hash : String → String) (secret : String)
    (now now2 : Nat) (st : Store)
    (firstname lastname email password : String) :
    ((signup hash secret now st firstname lastname email password).1.status
        = 400
      ↔ (firstname = "" ∨ lastname = "" ∨ email = "" ∨ password = ""))
    ∧ ((signup hash secret now st firstname lastname email password).1.status
        = 409
      ↔ (¬(firstname = "" ∨ lastname = "" ∨ email = "" ∨ password = "")
          ∧ ∃ u ∈ st.users, u.email = email))
    ∧ ((signup hash secret now st firstname lastname email password).1.status
        = 201
      ↔ (¬(firstname = "" ∨ lastname = "" ∨ email = "" ∨ password = "")
          ∧ ∀ u ∈ st.users, u.email ≠ email))
    ∧ ((signup hash secret now st firstname lastname email password).1.status
        = 201 →
      ∃ msg tok view,
        (signup hash secret now st firstname lastname email password).1
          = .created msg tok view)
    ∧ (∀ msg tok view,
        (signup hash secret now st firstname lastname email password).1
          = .created msg tok view →
        ∀ firstname2 lastname2 password2,
          firstname2 ≠ "" → lastname2 ≠ "" → password2 ≠ "" →
          (signup hash secret now2
            (signup hash secret now st firstname lastname email password).2
            firstname2 lastname2 email password2).1
            = .conflictError) := by
  by_cases hblank : firstname = "" ∨ lastname = "" ∨ email = "" ∨ password = ""
  · have h1 : signup hash secret now st firstname lastname email password
        = (.validationError, st) := by
      simp only [signup, if_pos hblank]
    refine ⟨?_, ?_, ?_, ?_, ?_⟩
    · simp [h1, SignupResult.status, hblank]
    · simp [h1, SignupResult.status, hblank]
    · simp [h1, SignupResult.status, hblank]
    · simp [h1, SignupResult.status]
    · simp [h1]
  · by_cases hdup : st.users.any (fun u => u.email == email) = true
    · have h1 : signup hash secret now st firstname lastname email password
          = (.conflictError, st) := by
        simp only [signup, if_neg hblank, if_pos hdup]
      have hex : ∃ u ∈ st.users, u.email = email := by
        obtain ⟨u, hu, he⟩ := List.any_eq_true.mp hdup
        exact ⟨u, hu, by simpa using he⟩
      refine ⟨?_, ?_, ?_, ?_, ?_⟩
      · simp [h1, SignupResult.status, hblank]
      · simp only [h1, SignupResult.status]
        exact iff_of_true trivial ⟨hblank, hex⟩
      · simp only [h1, SignupResult.status]
        constructor
        · intro h
          exact absurd h (by norm_num)
        · rintro ⟨-, hall⟩
          obtain ⟨u, hu, he⟩ := hex
          exact absurd he (hall u hu)
      · simp [h1, SignupResult.status]
      · simp [h1]
    · have hdup' : st.users.any (fun u => u.email == email) = false :=
        Bool.eq_false_iff.mpr hdup
      have hall : ∀ u ∈ st.users, u.email ≠ email := by
        intro u hu
        have := List.any_eq_false.mp hdup' u hu
        simpa using this
      have h1 : signup hash secret now st firstname lastname email password
          = (.created "User created successfully"
              (signToken secret now ⟨st.nextId, email⟩)
              (UserRecord.view
                { id := st.nextId, firstname := firstname,
                  lastname := lastname, email := email,
                  password := hash password, created := now,
                  updated := now }),
              { users := st.users ++
                  [{ id := st.nextId, firstname := firstname,
                      lastname := lastname, email := email,
                      password := hash password, created := now,
                      updated := now }],
                nextId := st.nextId + 1 }) := by
        simp only [signup, if_neg hblank, hdup', Bool.false_eq_true,
          if_false]
      refine ⟨?_, ?_, ?_, ?_, ?_⟩
      · simp [h1, SignupResult.status, hblank]
      · simp only [h1, SignupResult.status]
        constructor
        · intro h
          exact absurd h (by norm_num)
        · rintro ⟨-, u, hu, he⟩
          exact absurd he (hall u hu)
      · simp only [h1, SignupResult.status]
        exact iff_of_true trivial ⟨hblank, hall⟩
      · intro _
        exact ⟨_, _, _, by rw [h1]⟩
      · intro msg tok view _ firstname2 lastname2 password2 h2f h2l h2p
        have hemail : email ≠ "" := by
          push_neg at hblank
          exact hblank.2.2.1
        have hblank2 : ¬(firstname2 = "" ∨ lastname2 = "" ∨ email = ""
            ∨ password2 = "") := by
          push_neg
          exact ⟨h2f, h2l, hemail, h2p⟩
        rw [h1]
        simp [signup, hblank2]

/-- Concrete instance of C3: a fresh signup into the empty store is 201. -/
theorem signup_statuses_witness :
    (signup (fun p => "h" ++ p) "s" 0 ⟨[], 0⟩ "a" "b" "e" "p").1.status
      = 201 :=
  ((signup_statuses (fun p => "h" ++ p) "s" 0 0 ⟨[], 0⟩
    "a" "b" "e" "p").2.2.1).mpr ⟨by simp, by simp⟩

/-- C4: login is 400 exactly when email or password is missing, 404 exactly
when no record matches the email, 401 when the record exists but the password
does not verify against the stored hash, and 200 with message, token and user
when it does; the store is never mutated, and a previously-signed-up email
with its correct password logs in with 200. -/
theorem login_statuses (hash : String → String)
    (verifyPw : String → String → Bool) (secret : String) (now now2 : Nat)
    (st : Store) (email password : String) :
    ((login verifyPw secret now st email password).1.status = 400
      ↔ (email = "" ∨ password = ""))
    ∧ ((login verifyPw secret now st email password).1.status = 404
      ↔ (¬(email = "" ∨ password = "")
          ∧ st.users.find? (fun u => u.email == email) = none))
    ∧ (¬(email = "" ∨ password = "") →
        ∀ u, st.users.find? (fun v => v.email == email) = some u →
          (verifyPw password u.password = false →
            (login verifyPw secret now st email password).1.status = 401)
          ∧ (verifyPw password u.password = true →
              (login verifyPw secret now st email password).1
                = .ok "Login successful"
                    (signToken secret now ⟨u.id, u.email⟩) u.view))
    ∧ ((login verifyPw secret now st email password).2 = st)
    ∧ (∀ firstname lastname,
        (∀ p, verifyPw p (hash p) = true) →
        firstname ≠ "" → lastname ≠ "" → email ≠ "" → password ≠ "" →
        (∀ u ∈ st.users, u.email ≠ email) →
        (login verifyPw secret now2
          (signup hash secret now st firstname lastname email password).2
          email password).1.status = 200) := by
  have hfifth : ∀ firstname lastname,
      (∀ p, verifyPw p (hash p) = true) →
      firstname ≠ "" → lastname ≠ "" → email ≠ "" → password ≠ "" →
      (∀ u ∈ st.users, u.email ≠ email) →
      (login verifyPw secret now2
        (signup hash secret now st firstname lastname email password).2
        email password).1.status = 200 := by
    intro firstname lastname hver hf hl he hp hfresh
    have hblank1 : ¬(firstname = "" ∨ lastname = "" ∨ email = ""
        ∨ password = "") := by
      push_neg
      exact ⟨hf, hl, he, hp⟩
    have hdup : st.users.any (fun u => u.email == email) = false := by
      simp only [List.any_eq_false]
      intro u hu
      simpa using hfresh u hu
    have hblank2 : ¬(email = "" ∨ password = "") := by
      push_neg
      exact ⟨he, hp⟩
    have hfindnone : st.users.find? (fun u => u.email == email) = none := by
      simp only [List.find?_eq_none]
      intro u hu
      simpa using hfresh u hu
    simp only [signup, if_neg hblank1, hdup, Bool.false_eq_true, if_false]
    simp [login, hblank2, List.find?_append, hfindnone, List.find?_cons,
      hver password, LoginResult.status]
  by_cases hblank : email = "" ∨ password = ""
  · have h1 : login verifyPw secret now st email password
        = (.validationError, st) := by
      simp only [login, if_pos hblank]
    refine ⟨by simp [h1, LoginResult.status, hblank],
      by simp [h1, LoginResult.status, hblank],
      fun hnb => absurd hblank hnb, by simp [h1], hfifth⟩
  · cases hfind : st.users.find? (fun u => u.email == email) with
    | none =>
      have h1 : login verifyPw secret now st email password
          = (.notFoundError, st) := by
        simp only [login, if_neg hblank, hfind]
      refine ⟨by simp [h1, LoginResult.status, hblank],
        iff_of_true (by simp [h1, LoginResult.status]) ⟨hblank, rfl⟩,
        ?_, by simp [h1], hfifth⟩
      intro _ u hu
      exact Option.noConfusion hu
    | some u =>
      by_cases hpw : verifyPw password u.password = true
      · have h1 : login verifyPw secret now st email password
            = (.ok "Login successful" (signToken secret now ⟨u.id, u.email⟩)
                u.view, st) := by
          simp only [login, if_neg hblank, hfind, if_pos hpw]
        refine ⟨by simp [h1, LoginResult.status, hblank],
          by simp [h1, LoginResult.status, hblank, hfind],
          ?_, by simp [h1], hfifth⟩
        intro _ u' hu'
        injection hu' with hu2
        subst hu2
        refine ⟨fun hf => ?_, fun _ => by simp [h1]⟩
        rw [hpw] at hf
        exact Bool.noConfusion hf
      · have h1 : login verifyPw secret now st email password
            = (.unauthorizedError, st) := by
          simp only [login, if_neg hblank, hfind, if_neg hpw]
        refine ⟨by simp [h1, LoginResult.status, hblank],
          by simp [h1, LoginResult.status, hblank, hfind],
          ?_, by simp [h1], hfifth⟩
        intro _ u' hu'
        injection hu' with hu2
        subst hu2
        exact ⟨fun _ => by simp [h1, LoginResult.status],
          fun ht => absurd ht hpw⟩

/-- Concrete instance of C4: signup then login with the same credentials
returns 200, and login mutates nothing. -/
theorem login_statuses_witness :
    (login (fun p h => h == "h" ++ p) "s" 1
      (signup (fun p => "h" ++ p) "s" 0 ⟨[], 0⟩ "a" "b" "e" "p").2
      "e" "p").1.status = 200
    ∧ (login (fun p h => h == "h" ++ p) "s" 1 ⟨[], 0⟩ "e" "p").2
        = ⟨[], 0⟩ := by
  constructor
  · exact (login_statuses (fun p => "h" ++ p) (fun p h => h == "h" ++ p)
      "s" 0 1 ⟨[], 0⟩ "e" "p").2.2.2.2 "a" "b" (fun p => by simp)
      (by decide) (by decide) (by decide) (by decide) (by simp)
  · exact (login_statuses (fun p => "h" ++ p) (fun p h => h == "h" ++ p)
      "s" 1 0 ⟨[], 0⟩ "e" "p").2.2.2.1

/-- Every key of a sanitized user view differs from `password`. -/
theorem view_no_password_key (u : UserRecord) :
    ∀ kv ∈ u.view, kv.1 ≠ "password" := by
  intro kv hkv
  simp only [UserRecord.view, List.mem_cons, List.not_mem_nil,
    or_false] at hkv
  rcases hkv with rfl | rfl | rfl | rfl | rfl | rfl <;> simp

/-- C5: no password appears in any response: the user views returned by
signup and login have no `password` key, the persisted hash never equals the
plaintext (the hasher being one-way), and no top-level response body key is
`password` on any success or error path. -/
theorem no_password_in_responses (hash : String → String)
    (verifyPw : String → String → Bool) (secret : String) (now : Nat)
    (st : Store) (firstname lastname email password : String)
    (hhash : ∀ p, hash p ≠ p) :
    (∀ msg tok view,
        (signup hash secret now st firstname lastname email password).1
          = .created msg tok view →
        ∀ kv ∈ view, kv.1 ≠ "password")
    ∧ (∀ u ∈ (signup hash secret now st firstname lastname email
          password).2.users, u ∉ st.users → u.password ≠ password)
    ∧ (∀ msg tok view,
        (login verifyPw secret now st email password).1 = .ok msg tok view →
        ∀ kv ∈ view, kv.1 ≠ "password")
    ∧ "password" ∉ SignupResult.bodyKeys
        (signup hash secret now st firstname lastname email password).1
    ∧ "password" ∉ LoginResult.bodyKeys
        (login verifyPw secret now st email password).1 := by
  refine ⟨?_, ?_, ?_, ?_, ?_⟩
  · intro msg tok view hc kv hkv
    by_cases hblank : firstname = "" ∨ lastname = "" ∨ email = ""
        ∨ password = ""
    · rw [show signup hash secret now st firstname lastname email password
          = (.validationError, st) by simp only [signup, if_pos hblank]]
        at hc
      simp at hc
    · by_cases hdup : st.users.any (fun u => u.email == email) = true
      · rw [show signup hash secret now st firstname lastname email password
            = (.conflictError, st)
            by simp only [signup, if_neg hblank, if_pos hdup]] at hc
        simp at hc
      · have hdup' : st.users.any (fun u => u.email == email) = false :=
          Bool.eq_false_iff.mpr hdup
        simp only [signup, if_neg hblank, hdup', Bool.false_eq_true,
          if_false] at hc
        obtain ⟨-, -, hv⟩ := SignupResult.created.inj hc
        subst hv
        exact view_no_password_key _ kv hkv
  · intro u hu hnotin
    by_cases hblank : firstname = "" ∨ lastname = "" ∨ email = ""
        ∨ password = ""
    · rw [show signup hash secret now st firstname lastname email password
          = (.validationError, st) by simp only [signup, if_pos hblank]]
        at hu
      exact absurd hu hnotin
    · by_cases hdup : st.users.any (fun u => u.email == email) = true
      · rw [show signup hash secret now st firstname lastname email password
            = (.conflictError, st)
            by simp only [signup, if_neg hblank, if_pos hdup]] at hu
        exact absurd hu hnotin
      · have hdup' : st.users.any (fun u => u.email == email) = false :=
          Bool.eq_false_iff.mpr hdup
        simp only [signup, if_neg hblank, hdup', Bool.false_eq_true,
          if_false] at hu
        rcases List.mem_append.mp hu with h | h
        · exact absurd h hnotin
        · simp only [List.mem_singleton] at h
          subst h
          exact hhash password
  · intro msg tok view hc kv hkv
    by_cases hblank : email = "" ∨ password = ""
    · rw [show login verifyPw secret now st email password
          = (.validationError, st) by simp only [login, if_pos hblank]]
        at hc
      simp at hc
    · cases hfind : st.users.find? (fun u => u.email == email) with
      | none =>
        rw [show login verifyPw secret now st email password
            = (.notFoundError, st)
            by simp only [login, if_neg hblank, hfind]] at hc
        simp at hc
      | some u =>
        by_cases hpw : verifyPw password u.password = true
        · rw [show login verifyPw secret now st email password
              = (.ok "Login successful"
                  (signToken secret now ⟨u.id, u.email⟩) u.view, st)
              by simp only [login, if_neg hblank, hfind, if_pos hpw]] at hc
          obtain ⟨-, -, hv⟩ := LoginResult.ok.inj (by simpa using hc)
          subst hv
          exact view_no_password_key _ kv hkv
        · rw [show login verifyPw secret now st email password
              = (.unauthorizedError, st)
              by simp only [login, if_neg hblank, hfind, if_neg hpw]] at hc
          simp at hc
  · cases hr : (signup hash secret now st firstname lastname email
        password).1 <;> simp [SignupResult.bodyKeys]
  · cases hr : (login verifyPw secret now st email password).1 <;>
      simp [LoginResult.bodyKeys]

/-- Concrete instance of C5: the hash of a fresh signup never equals the
plaintext, with a one-way test hasher. -/
theorem no_password_in_responses_witness :
    ({ id := 0, firstname := "a", lastname := "b", email := "e",
        password := "hp", created := 0, updated := 0 } : UserRecord).password
      ≠ "p" :=
  (no_password_in_responses (fun p => "h" ++ p) (fun _ h => h == "hp")
    "s" 0 ⟨[], 0⟩ "a" "b" "e" "p"
    (fun p hp => by
      have h2 := congrArg String.length hp
      rw [String.length_append] at h2
      have h3 : "h".length = 1 := rfl
      omega)).2.1
    { id := 0, firstname := "a", lastname := "b", email := "e",
      password := "hp", created := 0, updated := 0 }
    (by decide) (by decide)

/-- C6: every token issued by a successful signup or login carries an `email`
claim equal to the request's email, is stamped `iat = now` with a 24-hour
expiry, and verifies under the signing secret at any time before expiry,
decoding to exactly its claims. -/
theorem issued_token_claims (hash : String → String)
    (verifyPw : String → String → Bool) (secret : String) (now : Nat)
    (st : Store) (firstname lastname email password : String) :
    (∀ msg tok view,
        (signup hash secret now st firstname lastname email password).1
          = .created msg tok view →
        tok.claims.email = email ∧ tok.iat = now
          ∧ tok.exp = tok.iat + 24 * 60 * 60
          ∧ ∀ t2, t2 < tok.exp → verifyToken secret t2 tok = some tok.claims)
    ∧ (∀ msg tok view,
        (login verifyPw secret now st email password).1
          = .ok msg tok view →
        tok.claims.email = email ∧ tok.iat = now
          ∧ tok.exp = tok.iat + 24 * 60 * 60
          ∧ ∀ t2, t2 < tok.exp →
              verifyToken secret t2 tok = some tok.claims) := by
  have hver : ∀ (c : Claims) (t2 : Nat),
      t2 < (signToken secret now c).exp →
      verifyToken secret t2 (signToken secret now c)
        = some (signToken secret now c).claims := by
    intro c t2 ht
    have ht2 : t2 < now + 24 * 60 * 60 := ht
    show (if secret = secret ∧ t2 < now + 24 * 60 * 60 then some c
      else none) = some c
    rw [if_pos ⟨rfl, ht2⟩]
  constructor
  · intro msg tok view hc
    by_cases hblank : firstname = "" ∨ lastname = "" ∨ email = ""
        ∨ password = ""
    · rw [show signup hash secret now st firstname lastname email password
          = (.validationError, st) by simp only [signup, if_pos hblank]]
        at hc
      simp at hc
    · by_cases hdup : st.users.any (fun u => u.email == email) = true
      · rw [show signup hash secret now st firstname lastname email password
            = (.conflictError, st)
            by simp only [signup, if_neg hblank, if_pos hdup]] at hc
        simp at hc
      · have hdup' : st.users.any (fun u => u.email == email) = false :=
          Bool.eq_false_iff.mpr hdup
        simp only [signup, if_neg hblank, hdup', Bool.false_eq_true,
          if_false] at hc
        obtain ⟨-, htok, -⟩ := SignupResult.created.inj hc
        subst htok
        exact ⟨rfl, rfl, rfl, hver _⟩
  · intro msg tok view hc
    by_cases hblank : email = "" ∨ password = ""
    · rw [show login verifyPw secret now st email password
          = (.validationError, st) by simp only [login, if_pos hblank]]
        at hc
      simp at hc
    · cases hfind : st.users.find? (fun u => u.email == email) with
      | none =>
        rw [show login verifyPw secret now st email password
            = (.notFoundError, st)
            by simp only [login, if_neg hblank, hfind]] at hc
        simp at hc
      | some u =>
        by_cases hpw : verifyPw password u.password = true
        · rw [show login verifyPw secret now st email password
              = (.ok "Login successful"
                  (signToken secret now ⟨u.id, u.email⟩) u.view, st)
              by simp only [login, if_neg hblank, hfind, if_pos hpw]] at hc
          obtain ⟨-, htok, -⟩ := LoginResult.ok.inj (by simpa using hc)
          subst htok
          have hemail : u.email = email := by
            simpa using List.find?_some hfind
          exact ⟨hemail, rfl, rfl, hver _⟩
        · rw [show login verifyPw secret now st email password
              = (.unauthorizedError, st)
              by simp only [login, if_neg hblank, hfind, if_neg hpw]] at hc
          simp at hc

/-- Concrete instance of C6: the token issued by a fresh signup decodes to
the input email with a 24-hour expiry. -/
theorem issued_token_claims_witness :
    (signToken "s" 0 ⟨0, "e"⟩).claims.email = "e"
    ∧ (signToken "s" 0 ⟨0, "e"⟩).iat = 0
    ∧ (signToken "s" 0 ⟨0, "e"⟩).exp = (signToken "s" 0 ⟨0, "e"⟩).iat
        + 24 * 60 * 60
    ∧ ∀ t2, t2 < (signToken "s" 0 ⟨0, "e"⟩).exp →
        verifyToken "s" t2 (signToken "s" 0 ⟨0, "e"⟩)
          = some (signToken "s" 0 ⟨0, "e"⟩).claims :=
  (issued_token_claims (fun p => "h" ++ p) (fun _ _ => true) "s" 0 ⟨[], 0⟩
    "a" "b" "e" "p").1 "User created successfully" (signToken "s" 0 ⟨0, "e"⟩)
    (UserRecord.view
      { id := 0, firstname := "a", lastname := "b", email := "e",
        password := "hp", created := 0, updated := 0 })
    (by decide)

/-! ## Users resource controller -/

/-- A partial update for PUT /users/:id: a field is changed exactly when it
is supplied in the request body. -/
structure UserUpdate where
  firstname : Option String
  lastname : Option String
  email : Option String
  password : Option String
deriving DecidableEq, Repr

/-- Modelled from the spec (§8: an update changes only the supplied fields
and refreshes `updated`): apply an update to one record at time `now`. -/
def applyUpdate (now : Nat) (upd : UserUpdate) (u : UserRecord) :
    UserRecord :=
  { u with
    firstname := upd.firstname.getD u.firstname,
    lastname := upd.lastname.getD u.lastname,
    email := upd.email.getD u.email,
    password := upd.password.getD u.password,
    updated := now }

/-- Modelled from the spec: the users controller update
(`users.controller.js` is absent from src; only its tests are present):
find the record by id, apply the supplied fields, refresh `updated`, and
return the updated record; `none` when no record has the id. -/
def updateUserById (now : Nat) (st : Store) (id : Nat) (upd : UserUpdate) :
    Option (UserRecord × Store) :=
  match st.users.find? (fun u => u.id == id) with
  | none => none
  | some u =>
    let u2 := applyUpdate now upd u
    some (u2,
      { st with users := st.users.map (fun v => if v.id == id then u2 else v) })

/-- Modelled from the spec (§4.4): GET /users/:id status mapping; the id
parameter is `none` when its format is syntactically invalid. -/
def getUserById (st : Store) (idParam : Option Nat) : Nat :=
  match idParam with
  | none => 400
  | some id =>
    match st.users.find? (fun u => u.id == id) with
    | none => 404
    | some _ => 200

/-- Modelled from the spec (§4.4): PUT /users/:id status mapping. -/
def putUserById (now : Nat) (st : Store) (idParam : Option Nat)
    (upd : UserUpdate) : Nat :=
  match idParam with
  | none => 400
  | some id =>
    match updateUserById now st id upd with
    | none => 404
    | some _ => 200

/-- Modelled from the spec (§4.4): DELETE /users/:id status mapping and
resulting store. -/
def deleteUserById (st : Store) (idParam : Option Nat) : Nat × Store :=
  match idParam with
  | none => (400, st)
  | some id =>
    match st.users.find? (fun u => u.id == id) with
    | none => (404, st)
    | some _ =>
      (200, { st with users := st.users.filter (fun u => !(u.id == id)) })

/-- Modelled from the spec (§4.4, §6): POST /users delegates to the store,
whose validation failure (missing required fields) and uniqueness failure
(duplicate email) both surface as a bare 500, not distinguished. -/
def createUser (now : Nat) (st : Store)
    (firstname lastname email password : String) : Nat × Store :=
  if firstname = "" ∨ lastname = "" ∨ email = "" ∨ password = "" then
    (500, st)
  else if st.users.any (fun u => u.email == email) then
    (500, st)
  else
    (201,
      { users := st.users ++
          [{ id := st.nextId, firstname := firstname, lastname := lastname,
              email := email, password := password, created := now,
              updated := now }],
        nextId := st.nextId + 1 })

/-- Modelled from the spec (§8): DELETE /users removes every record and
reports how many were present. -/
def removeAllUsers (st : Store) : (Nat × Nat) × Store :=
  ((200, st.users.length), { st with users := [] })

/-- C7: a successful PUT /users/:id sets exactly the supplied fields, leaves
every unsupplied field and every other record unchanged, and strictly
advances the record's `updated` timestamp. -/
theorem update_changes_only_supplied_fields (now : Nat) (st : Store)
    (id : Nat) (upd : UserUpdate) (u : UserRecord)
    (hfind : st.users.find? (fun v => v.id == id) = some u)
    (hnow : u.updated < now) :
    ∃ u2 st2, updateUserById now st id upd = some (u2, st2)
      ∧ (∀ v, upd.firstname = some v → u2.firstname = v)
      ∧ (upd.firstname = none → u2.firstname = u.firstname)
      ∧ (∀ v, upd.lastname = some v → u2.lastname = v)
      ∧ (upd.lastname = none → u2.lastname = u.lastname)
      ∧ (∀ v, upd.email = some v → u2.email = v)
      ∧ (upd.email = none → u2.email = u.email)
      ∧ (∀ v, upd.password = some v → u2.password = v)
      ∧ (upd.password = none → u2.password = u.password)
      ∧ u2.id = u.id ∧ u2.created = u.created
      ∧ u.updated < u2.updated
      ∧ (∀ v ∈ st.users, v.id ≠ id → v ∈ st2.users)
      ∧ st2.users.length = st.users.length := by
  have hst2 : updateUserById now st id upd
      = some (applyUpdate now upd u,
        ⟨st.users.map (fun v => if v.id == id then applyUpdate now upd u
          else v), st.nextId⟩) := by
    simp only [updateUserById, hfind]
  refine ⟨_, _, hst2, ?_, ?_, ?_, ?_, ?_, ?_, ?_, ?_, rfl, rfl, ?_, ?_, ?_⟩
  · intro v hv
    simp [applyUpdate, hv]
  · intro hv
    simp [applyUpdate, hv]
  · intro v hv
    simp [applyUpdate, hv]
  · intro hv
    simp [applyUpdate, hv]
  · intro v hv
    simp [applyUpdate, hv]
  · intro hv
    simp [applyUpdate, hv]
  · intro v hv
    simp [applyUpdate, hv]
  · intro hv
    simp [applyUpdate, hv]
  · exact hnow
  · intro v hv hne
    have hf : (if v.id == id then applyUpdate now upd u else v) = v := by
      rw [if_neg]
      simp [hne]
    have hm := List.mem_map_of_mem
      (fun w => if w.id == id then applyUpdate now upd u else w) hv
    simp only at hm
    rw [hf] at hm
    exact hm
  · exact List.length_map _ _

/-- Concrete instance of C7 at a one-record store. -/
theorem update_changes_only_supplied_fields_witness :
    ∃ u2 st2,
      updateUserById 5
        ⟨[{ id := 1, firstname := "a", lastname := "b", email := "e",
            password := "h", created := 0, updated := 0 }], 2⟩
        1 ⟨some "x", none, none, none⟩ = some (u2, st2)
      ∧ u2.firstname = "x"
      ∧ u2.lastname = "b" := by
  obtain ⟨u2, st2, h1, h2, h3, h4, h5, rest⟩ :=
    update_changes_only_supplied_fields 5
      ⟨[{ id := 1, firstname := "a", lastname := "b", email := "e",
          password := "h", created := 0, updated := 0 }], 2⟩
      1 ⟨some "x", none, none, none⟩
      { id := 1, firstname := "a", lastname := "b", email := "e",
        password := "h", created := 0, updated := 0 }
      (by decide) (by decide)
  exact ⟨u2, st2, h1, h2 "x" rfl, h5 rfl⟩

/-- C8: controller error mapping: a syntactically invalid id gives 400 on
GET/PUT/DELETE /users/:id; a well-formed id matching no record gives 404; a
found record gives 200; and POST /users returns the same undistinguished 500
both for a store validation failure (missing required fields) and for a
uniqueness failure (duplicate email). -/
theorem controller_error_mapping (now : Nat) (st : Store) (upd : UserUpdate)
    (id : Nat) (firstname lastname email password : String) :
    (getUserById st none = 400 ∧ putUserById now st none upd = 400
      ∧ (deleteUserById st none).1 = 400)
    ∧ (st.users.find? (fun u => u.id == id) = none →
        getUserById st (some id) = 404
        ∧ putUserById now st (some id) upd = 404
        ∧ (deleteUserById st (some id)).1 = 404)
    ∧ (∀ u, st.users.find? (fun v => v.id == id) = some u →
        getUserById st (some id) = 200
        ∧ putUserById now st (some id) upd = 200
        ∧ (deleteUserById st (some id)).1 = 200)
    ∧ ((firstname = "" ∨ lastname = "" ∨ email = "" ∨ password = "") →
        (createUser now st firstname lastname email password).1 = 500)
    ∧ (st.users.any (fun u => u.email == email) = true →
        (createUser now st firstname lastname email password).1 = 500) := by
  refine ⟨⟨rfl, rfl, rfl⟩, ?_, ?_, ?_, ?_⟩
  · intro hf
    exact ⟨by simp only [getUserById, hf],
      by simp only [putUserById, updateUserById, hf],
      by simp only [deleteUserById, hf]⟩
  · intro u hf
    exact ⟨by simp only [getUserById, hf],
      by simp only [putUserById, updateUserById, hf],
      by simp only [deleteUserById, hf]⟩
  · intro hblank
    simp only [createUser, if_pos hblank]
  · intro hdup
    by_cases hblank : firstname = "" ∨ lastname = "" ∨ email = ""
        ∨ password = ""
    · simp only [createUser, if_pos hblank]
    · simp only [createUser, if_neg hblank, if_pos hdup]

/-- Concrete instance of C8: on the empty store, an unknown id is 404 and a
blank POST body is 500. -/
theorem controller_error_mapping_witness :
    getUserById ⟨[], 0⟩ (some 1) = 404
    ∧ (createUser 0 ⟨[], 0⟩ "" "" "" "").1 = 500 :=
  ⟨((controller_error_mapping 0 ⟨[], 0⟩ ⟨none, none, none, none⟩ 1
      "" "" "" "").2.1 rfl).1,
    (controller_error_mapping 0 ⟨[], 0⟩ ⟨none, none, none, none⟩ 1
      "" "" "" "").2.2.2.1 (Or.inl rfl)⟩

/-- C9: DELETE /users returns 200 with a `deletedCount` equal to the number
of records present immediately before the call, leaves the collection empty
afterwards, and reports 0 on an already-empty collection. -/
theorem remove_all_counts (st : Store) :
    (removeAllUsers st).1.1 = 200
    ∧ (removeAllUsers st).1.2 = st.users.length
    ∧ (removeAllUsers st).2.users = []
    ∧ (st.users = [] → (removeAllUsers st).1.2 = 0) := by
  refine ⟨rfl, rfl, rfl, ?_⟩
  intro h
  simp [removeAllUsers, h]

/-- Concrete instance of C9: the empty collection reports 0 deleted. -/
theorem remove_all_counts_witness :
    (removeAllUsers ⟨[], 0⟩).1.2 = 0 :=
  (remove_all_counts ⟨[], 0⟩).2.2.2 rfl

/-! ## Route tables -/

/-- The six controller actions a resource router dispatches to. -/
inductive RouteAction where
  | getAll
  | getById
  | create
  | updateById
  | removeById
  | removeAll
deriving DecidableEq, Repr

/-- Route table of `src/routes/projects.routes.js`: both GET routes are bare;
POST `/`, PUT `/:id`, DELETE `/:id` and DELETE `/` are wrapped by the auth
middleware. -/
def projectsGuarded : RouteAction → Bool
  | .getAll => false
  | .getById => false
  | .create => true
  | .updateById => true
  | .removeById => true
  | .removeAll => true

/-- Route table of the users router: GET routes and POST `/` are bare; PUT
`/:id`, DELETE `/:id` and DELETE `/` are wrapped by the auth middleware. -/
def usersGuarded : RouteAction → Bool
  | .getAll => false
  | .getById => false
  | .create => false
  | .updateById => true
  | .removeById => true
  | .removeAll => true

/-- Dispatch of one request through a route table: a guarded route runs the
auth middleware first (REJECT → 401 without reaching the controller); a bare
route invokes its controller directly, with no identity attached. -/
def dispatch (guarded : RouteAction → Bool)
    (verify : String → Option Claims) (header : Option String)
    (handler : RouteAction → Option Claims → Nat) (r : RouteAction) : Nat :=
  if guarded r then
    match authGuard verify header with
    | .pass c => handler r (some c)
    | .reject => 401
  else handler r none

/-- C10: every mutating projects route (POST, PUT /:id, DELETE /:id,
DELETE /) is auth-guarded and returns 401 on any request the guard rejects;
both GET projects routes are unguarded and always reach their controller;
and POST /projects is guarded even though POST /users is not. -/
theorem projects_mutating_routes_guarded
    (verify : String → Option Claims) (header : Option String)
    (handler : RouteAction → Option Claims → Nat)
    (hrej : authGuard verify header = .reject) :
    (∀ r, (r = .create ∨ r = .updateById ∨ r = .removeById
        ∨ r = .removeAll) →
      projectsGuarded r = true
      ∧ dispatch projectsGuarded verify header handler r = 401)
    ∧ dispatch projectsGuarded verify header handler .getAll
        = handler .getAll none
    ∧ dispatch projectsGuarded verify header handler .getById
        = handler .getById none
    ∧ projectsGuarded .create = true
    ∧ usersGuarded .create = false
    ∧ dispatch usersGuarded verify header handler .create
        = handler .create none := by
  refine ⟨?_, by simp [dispatch, projectsGuarded],
    by simp [dispatch, projectsGuarded], rfl, rfl,
    by simp [dispatch, usersGuarded]⟩
  intro r hr
  rcases hr with rfl | rfl | rfl | rfl <;>
    exact ⟨rfl, by simp [dispatch, projectsGuarded, hrej]⟩

/-- Concrete instance of C10: with no Authorization header, POST /projects is
401 while POST /users reaches its controller. -/
theorem projects_mutating_routes_guarded_witness :
    dispatch projectsGuarded testVerify none (fun _ _ => 200) .create = 401
    ∧ dispatch usersGuarded testVerify none (fun _ _ => 200) .create
        = 200 := by
  have h := projects_mutating_routes_guarded testVerify none
    (fun _ _ => 200) rfl
  exact ⟨(h.1 .create (Or.inl rfl)).2, h.2.2.2.2.2⟩

end PortfolioBackend
